import Mathlib

/-!
Shallow embedding of `src/lib/woo.ts`, a thin WooCommerce REST client.

The module reads three credential strings from the environment at load
time, exposes request-building operations (`createOrder`, `updateOrder`,
`updateOrderInfo`, `setOrderPaid`, `getShippingOptions`, `createUser`,
`get`), all funnelled through one `call` function that builds the URL,
forces the two credential query parameters, and issues a single `fetch`.

The embedding separates each operation into the `Request` value it sends
(method, URL path, query parameter list, unserialized JSON body) and,
where the operation parses its response, a pure handler from the received
`Response` to the returned value.  JavaScript runtime values that flow
through `any`-typed positions are modelled by the `JValue` type below;
`undefined` is `JValue.undefined`.
-/

namespace Woo

/-- Model of a JavaScript JSON-like runtime value, including `undefined`
(which `JSON.stringify` omits from serialized objects). -/
inductive JValue where
  | undefined : JValue
  | null : JValue
  | bool (b : Bool) : JValue
  | num (n : Int) : JValue
  | str (s : String) : JValue
  | arr (elems : List JValue) : JValue
  | obj (fields : List (String × JValue)) : JValue

/-- Embedding of a JavaScript optional-string expression: a present string
becomes a JSON string, an absent (`undefined`) value stays `undefined`. -/
def jopt : Option String → JValue
  | some s => .str s
  | none => .undefined

/-- Property access on a modelled JS object literal: value of the first
field with the given name, if any. -/
def lookupField (fields : List (String × JValue)) (name : String) : Option JValue :=
  (fields.find? (fun p => decide (p.1 = name))).map (fun p => p.2)

/-- Model of `URLSearchParams.set(name, value)` (WHATWG URL standard):
if a parameter with that name exists, the first occurrence's value is
replaced in place and all later occurrences of the name are removed;
otherwise the pair is appended at the end. -/
def paramsSet : List (String × String) → String → String → List (String × String)
  | [], name, value => [(name, value)]
  | p :: t, name, value =>
    if p.1 = name then
      (name, value) :: t.filter (fun q => decide (q.1 ≠ name))
    else
      p :: paramsSet t name value

/-- Model of JavaScript `String.prototype.replace("//", "/")` on the
character list of a string: only the FIRST occurrence of `//` is
collapsed to a single `/`; everything else is untouched
(`src/lib/woo.ts` line 56). -/
def replaceFirstDS : List Char → List Char
  | [] => []
  | [c] => [c]
  | a :: b :: t =>
    if a = '/' ∧ b = '/' then '/' :: t
    else a :: replaceFirstDS (b :: t)

/-- Whether a character list contains two adjacent slashes anywhere. -/
def hasDS : List Char → Bool
  | [] => false
  | [_] => false
  | a :: b :: t => (a = '/' && b = '/') || hasDS (b :: t)

/-- URL construction of `call`: the base URL is concatenated with the
fixed API segment `/wp-json/wc/v3/` and the endpoint, then the first
occurrence of `//` in the whole string is replaced by `/`
(`url.replace("//", "/")` with a string pattern replaces only the first
match). -/
def joinUrl (base api : String) : String :=
  String.mk (replaceFirstDS (base ++ "/wp-json/wc/v3/" ++ api).data)

/-- The three module-level credential constants, assumed present for the
request-building operations (`WOOCOMMERCE_URL`, `CONSUMER_KEY`,
`CONSUMER_SECRET` in the source). -/
structure Creds where
  url : String
  key : String
  secret : String
  deriving Repr, DecidableEq

/-- The single outbound HTTP request an operation issues, before wire
serialization: method, URL path part (query string excluded), the query
parameter list in `URLSearchParams` insertion order (the source appends
`"?" ++ query.toString()` to the path), and the not-yet-stringified JSON
body (`JSON.stringify` is applied when a body is present). -/
structure Request where
  method : String
  url : String
  query : List (String × String)
  body : Option JValue

/-- Query-parameter processing of `call`: start from the caller's
parameters (or an empty list when none are given, mirroring
`if (!query) query = new URLSearchParams()`), then
`query.set("consumer_secret", CONSUMER_SECRET)` and
`query.set("consumer_key", CONSUMER_KEY)`, in that order. -/
def callQuery (key secret : String) (query : Option (List (String × String))) :
    List (String × String) :=
  paramsSet (paramsSet (query.getD []) "consumer_secret" secret) "consumer_key" key

/-- Embedding of `call(method, api, query?, body?)`: builds the URL with
`joinUrl`, forces the credential query parameters with `callQuery`, and
returns the one request that is passed to `fetch`. -/
def call (c : Creds) (method api : String) (query : Option (List (String × String)))
    (body : Option JValue) : Request :=
  { method := method
    url := joinUrl c.url api
    query := callQuery c.key c.secret query
    body := body }

/-- Embedding of the `put` helper: `call("PUT", api, query, body)`. -/
def put (c : Creds) (api : String) (body : JValue)
    (query : Option (List (String × String))) : Request :=
  call c "PUT" api query (some body)

/-- Embedding of the `post` helper: `call("POST", api, query, body)`. -/
def post (c : Creds) (api : String) (body : JValue)
    (query : Option (List (String × String))) : Request :=
  call c "POST" api query (some body)

/-- Embedding of the exported `get`: `call("GET", api, query, undefined)`. -/
def get (c : Creds) (api : String) (query : Option (List (String × String))) : Request :=
  call c "GET" api query none

/-- Request issued by `createOrder(line_items, customer_note)`: a POST to
`orders` with body `{set_paid: false, line_items, customer_note}`. -/
def createOrder (c : Creds) (line_items : List JValue) (customer_note : String) : Request :=
  post c "orders"
    (.obj [("set_paid", .bool false),
           ("line_items", .arr line_items),
           ("customer_note", .str customer_note)])
    none

/-- Request issued by `updateOrder(orderId, update)`: a PUT to
`orders/${orderId}` with the update object as body, verbatim. -/
def updateOrder (c : Creds) (orderId : Int) (update : JValue) : Request :=
  put c ("orders/" ++ toString orderId) update none

/-- Model of Telegram's `ShippingAddress` collaborator type (all fields
are plain strings in the external type). -/
structure ShipAddress where
  street_line1 : String
  street_line2 : String
  city : String
  state : String
  post_code : String
  country_code : String
  deriving Repr, DecidableEq

/-- Model of Telegram's `OrderInfo` collaborator type: every field is
optional (`name?`, `phone_number?`, `email?`, `shipping_address?`). -/
structure OrderInfo where
  name : Option String
  phone_number : Option String
  email : Option String
  shipping_address : Option ShipAddress
  deriving Repr, DecidableEq

/-- The `shipping` sub-object built identically by `updateOrderInfo` and
`createUser`: `first_name` and `last_name` are both `orderInfo.name`, and
the address fields come from the optional `shipping_address` via `?.`. -/
def shippingObj (info : OrderInfo) : List (String × JValue) :=
  [("first_name", jopt info.name),
   ("last_name", jopt info.name),
   ("address_1", jopt (info.shipping_address.map (fun a => a.street_line1))),
   ("address_2", jopt (info.shipping_address.map (fun a => a.street_line2))),
   ("city", jopt (info.shipping_address.map (fun a => a.city))),
   ("state", jopt (info.shipping_address.map (fun a => a.state))),
   ("postcode", jopt (info.shipping_address.map (fun a => a.post_code))),
   ("country", jopt (info.shipping_address.map (fun a => a.country_code)))]

/-- The `billing` sub-object built identically by `updateOrderInfo` and
`createUser`: the shipping fields plus `email` and `phone`. -/
def billingObj (info : OrderInfo) : List (String × JValue) :=
  [("first_name", jopt info.name),
   ("last_name", jopt info.name),
   ("email", jopt info.email),
   ("phone", jopt info.phone_number),
   ("address_1", jopt (info.shipping_address.map (fun a => a.street_line1))),
   ("address_2", jopt (info.shipping_address.map (fun a => a.street_line2))),
   ("city", jopt (info.shipping_address.map (fun a => a.city))),
   ("state", jopt (info.shipping_address.map (fun a => a.state))),
   ("postcode", jopt (info.shipping_address.map (fun a => a.post_code))),
   ("country", jopt (info.shipping_address.map (fun a => a.country_code)))]

/-- Request issued by `updateOrderInfo(orderId, orderInfo)`: delegates to
`updateOrder` with the parallel `shipping`/`billing` object. -/
def updateOrderInfo (c : Creds) (orderId : Int) (info : OrderInfo) : Request :=
  updateOrder c orderId (.obj [("shipping", .obj (shippingObj info)),
                               ("billing", .obj (billingObj info))])

/-- Request issued by `setOrderPaid(orderId)`: delegates to `updateOrder`
with body `{set_paid: true}`. -/
def setOrderPaid (c : Creds) (orderId : Int) : Request :=
  updateOrder c orderId (.obj [("set_paid", .bool true)])

/-- The top-level body fields built by `createUser(orderInfo)`. -/
def createUserFields (info : OrderInfo) : List (String × JValue) :=
  [("email", jopt info.email),
   ("first_name", jopt info.name),
   ("last_name", jopt info.name),
   ("username", jopt info.name),
   ("shipping", .obj (shippingObj info)),
   ("billing", .obj (billingObj info))]

/-- Request issued by `createUser(orderInfo)`: a POST to `customers`. -/
def createUser (c : Creds) (info : OrderInfo) : Request :=
  post c "customers" (.obj (createUserFields info)) none

/-- Request issued by `getShippingOptions(zoneId)`: a GET to
`shipping/zones/${zoneId}/methods` (via the exported `get`). -/
def getShippingOptions (c : Creds) (zoneId : Int) : Request :=
  get c ("shipping/zones/" ++ toString zoneId ++ "/methods") none

/-- Model of a `fetch` `Response` whose JSON body decodes to `α`: the
HTTP status, and `jsonBody = some v` when `res.json()` resolves with `v`,
`none` when the raw body is not valid JSON so `res.json()` rejects. -/
structure Response (α : Type) where
  status : Nat
  jsonBody : Option α
  deriving Repr, DecidableEq

/-- The failures the response-handling code can raise (no other error
handling, retry, or fallback exists in the source). -/
inductive WooErr where
  | parseError : WooErr
  deriving Repr, DecidableEq

/-- Model of `await res.json()`: resolves with the parsed body when it is
valid JSON, raises a parsing failure otherwise.  The status field is
never consulted anywhere in the module. -/
def resJson {α : Type} (r : Response α) : Except WooErr α :=
  match r.jsonBody with
  | some v => .ok v
  | none => .error .parseError

/-- Response handling of `createOrder`: `return await res.json()` — the
parsed body is returned unchanged, whatever the status. -/
def createOrderHandle (r : Response JValue) : Except WooErr JValue :=
  resJson r

/-- Response handling of `createUser`: `return await res.json()`. -/
def createUserHandle (r : Response JValue) : Except WooErr JValue :=
  resJson r

/-- A remote shipping-method resource as returned by the WooCommerce
endpoint `shipping/zones/{id}/methods`; its `enabled` field is a JSON
boolean in the remote API contract, so the JS truthiness test
`method.enabled` coincides with this flag. -/
structure Method where
  method_id : String
  method_title : String
  enabled : Bool
  deriving Repr, DecidableEq

/-- One price entry of a projected shipping option. -/
structure Price where
  label : String
  amount : Int
  deriving Repr, DecidableEq

/-- The projection target of `getShippingOptions`. -/
structure ShippingOption where
  id : String
  title : String
  prices : List Price
  deriving Repr, DecidableEq

/-- The per-method projection inside `getShippingOptions`: `{id:
method_id, title: method_title, prices: [{label: "Free", amount: 0}]}`. -/
def projMethod (m : Method) : ShippingOption :=
  { id := m.method_id
    title := m.method_title
    prices := [{ label := "Free", amount := 0 }] }

/-- The pure body transformation of `getShippingOptions`:
`methods.filter((method) => method.enabled).map(...)`. -/
def shippingOptionsOf (methods : List Method) : List ShippingOption :=
  (methods.filter (fun m => m.enabled)).map projMethod

/-- Response handling of `getShippingOptions`: parse the JSON array, then
filter and project; a body that is not valid JSON raises, the status is
never consulted. -/
def getShippingOptionsHandle (r : Response (List Method)) :
    Except WooErr (List ShippingOption) :=
  (resJson r).map shippingOptionsOf

/-- Response handling of `setOrderPaid` (and `updateOrder`): the raw
`fetch` response is returned to the caller unchanged — no `json()` call,
no status inspection. -/
def setOrderPaidResult (r : Response JValue) : Response JValue :=
  r

/-- The module-level configuration read at load time. -/
structure EnvConfig where
  WOOCOMMERCE_URL : Option String
  CONSUMER_KEY : Option String
  CONSUMER_SECRET : Option String
  deriving Repr, DecidableEq

/-- Runtime semantics of the module's top-level credential reads
(`process.env.WOOCOMMERCE_URL!!` etc.): the TypeScript non-null
assertion is a compile-time annotation erased at runtime, so reading a
missing variable simply yields `undefined` (modelled as `none`) — there
is no runtime check and no failure path.  The result is wrapped in
`Except` so that the (absent) fatal-startup-error behaviour is statable:
this initializer never returns `.error`. -/
def moduleInit (env : String → Option String) : Except String EnvConfig :=
  .ok { WOOCOMMERCE_URL := env "WOOCOMMERCE_URL"
        CONSUMER_KEY := env "WOOCOMMERCE_CONSUMER_KEY"
        CONSUMER_SECRET := env "WOOCOMMERCE_CONSUMER_SECRET" }

/-- A concrete environment holding all three credential variables. -/
def envExample : String → Option String := fun n =>
  if n = "WOOCOMMERCE_URL" then some "https://shop.example/"
  else if n = "WOOCOMMERCE_CONSUMER_KEY" then some "ck"
  else if n = "WOOCOMMERCE_CONSUMER_SECRET" then some "cs"
  else none

/-- The credential-carrying invariant of an outbound request: both
credential parameters are present in the query with the configured
values, and no entry under either name carries any other value. -/
def credsOk (c : Creds) (r : Request) : Prop :=
  ("consumer_key", c.key) ∈ r.query ∧
  ("consumer_secret", c.secret) ∈ r.query ∧
  (∀ p ∈ r.query, p.1 = "consumer_key" → p.2 = c.key) ∧
  (∀ p ∈ r.query, p.1 = "consumer_secret" → p.2 = c.secret)

/-- Whether a query-parameter name is neither credential name. -/
def notCredName (s : String) : Bool :=
  !(decide (s = "consumer_key") || decide (s = "consumer_secret"))

/-- Setting a parameter makes the pair a member of the list. -/
theorem mem_paramsSet_self : ∀ (ps : List (String × String)) (n v : String),
    (n, v) ∈ paramsSet ps n v
  | [], n, v => by simp [paramsSet]
  | p :: t, n, v => by
    by_cases h : p.1 = n
    · simp [paramsSet, h]
    · simpa [paramsSet, h] using Or.inr (mem_paramsSet_self t n v)

/-- After setting a parameter, every entry under that name carries the
value just set. -/
theorem paramsSet_forces : ∀ (ps : List (String × String)) (n v : String)
    (p : String × String), p ∈ paramsSet ps n v → p.1 = n → p.2 = v
  | [], n, v, p, hmem, _ => by
    simp [paramsSet] at hmem
    simp [hmem]
  | q :: t, n, v, p, hmem, hn => by
    by_cases h : q.1 = n
    · simp only [paramsSet, if_pos h] at hmem
      rcases List.mem_cons.mp hmem with h1 | h1
      · simp [h1]
      · have h2 := (List.mem_filter.mp h1).2
        simp [hn] at h2
    · simp only [paramsSet, if_neg h] at hmem
      rcases List.mem_cons.mp hmem with h1 | h1
      · exact absurd (h1 ▸ hn) h
      · exact paramsSet_forces t n v p h1 hn

/-- Setting a parameter neither adds nor removes entries under any other
name. -/
theorem mem_paramsSet_of_ne : ∀ (ps : List (String × String)) (n v : String)
    (p : String × String), p.1 ≠ n → (p ∈ paramsSet ps n v ↔ p ∈ ps)
  | [], n, v, p, hne => by
    constructor
    · intro hmem
      simp [paramsSet] at hmem
      exact absurd (by simp [hmem]) hne
    · intro hmem
      simp at hmem
  | q :: t, n, v, p, hne => by
    by_cases h : q.1 = n
    · have hpq : p ≠ q := fun hc => hne (hc ▸ h)
      simp only [paramsSet, if_pos h, List.mem_cons, List.mem_filter]
      constructor
      · rintro (h1 | ⟨h1, _⟩)
        · exact absurd (by simp [h1]) hne
        · exact Or.inr h1
      · rintro (h1 | h1)
        · exact absurd h1 hpq
        · exact Or.inr ⟨h1, by simpa using hne⟩
    · simp only [paramsSet, if_neg h, List.mem_cons]
      rw [mem_paramsSet_of_ne t n v p hne]

/-- Filtering by a name predicate that rejects `n` commutes past the
removal of later duplicates of `n`. -/
theorem filter_removeAll {n : String} {Q : String → Bool} (hQ : Q n = false)
    (t : List (String × String)) :
    (t.filter (fun q => decide (q.1 ≠ n))).filter (fun p => Q p.1) =
      t.filter (fun p => Q p.1) := by
  rw [List.filter_filter]
  apply List.filter_congr
  intro a _
  by_cases h : a.1 = n
  · simp [h, hQ]
  · simp [h]

/-- Setting a parameter whose name a name predicate rejects does not
change the filtered query. -/
theorem filter_paramsSet : ∀ (ps : List (String × String)) (n v : String)
    (Q : String → Bool), Q n = false →
    (paramsSet ps n v).filter (fun p => Q p.1) = ps.filter (fun p => Q p.1)
  | [], n, v, Q, hQ => by simp [paramsSet, hQ]
  | q :: t, n, v, Q, hQ => by
    by_cases h : q.1 = n
    · have hQq : Q q.1 = false := by rw [h]; exact hQ
      simp only [paramsSet, if_pos h]
      rw [List.filter_cons_of_neg (by simpa using hQ),
        List.filter_cons_of_neg (by simpa using hQq)]
      exact filter_removeAll hQ t
    · simp only [paramsSet, if_neg h]
      by_cases hq : Q q.1 = true
      · rw [List.filter_cons_of_pos (by simpa using hq),
          List.filter_cons_of_pos (by simpa using hq),
          filter_paramsSet t n v Q hQ]
      · rw [List.filter_cons_of_neg (by simpa using hq),
          List.filter_cons_of_neg (by simpa using hq)]
        exact filter_paramsSet t n v Q hQ

/-- Every request built by `call` satisfies the credential invariant. -/
theorem credsOk_call (c : Creds) (m api : String)
    (q : Option (List (String × String))) (b : Option JValue) :
    credsOk c (call c m api q b) := by
  refine ⟨?_, ?_, ?_, ?_⟩
  · exact mem_paramsSet_self _ _ _
  · refine (mem_paramsSet_of_ne _ "consumer_key" c.key
      ("consumer_secret", c.secret) ?_).mpr (mem_paramsSet_self _ _ _)
    show ("consumer_secret" : String) ≠ "consumer_key"
    decide
  · intro p hp hk
    exact paramsSet_forces _ _ _ p hp hk
  · intro p hp hs
    have hne : p.1 ≠ "consumer_key" := by rw [hs]; decide
    exact paramsSet_forces _ _ _ p ((mem_paramsSet_of_ne _ _ _ p hne).mp hp) hs

/-- When a character list free of adjacent slashes and ending in a slash
is followed by a slash, the first double slash of the concatenation is
exactly the junction, so `replaceFirstDS` collapses it. -/
theorem replaceFirstDS_junction : ∀ (u rest : List Char),
    hasDS (u ++ ['/']) = false →
    replaceFirstDS (u ++ '/' :: '/' :: rest) = u ++ '/' :: rest
  | [], rest, _ => by simp [replaceFirstDS]
  | [a], rest, h => by
    have ha : a ≠ '/' := by
      intro hc
      subst hc
      simp [hasDS] at h
    simp [replaceFirstDS, ha]
  | a :: b :: u, rest, h => by
    have hab : ¬(a = '/' ∧ b = '/') := by
      rintro ⟨ha, hb⟩
      subst ha
      subst hb
      simp [hasDS] at h
    have ht : hasDS ((b :: u) ++ ['/']) = false := by
      simp only [List.cons_append, hasDS, Bool.or_eq_false_iff] at h
      exact h.2
    have e1 : (a :: b :: u) ++ '/' :: '/' :: rest
        = a :: b :: (u ++ '/' :: '/' :: rest) := rfl
    have e2 : (b :: u) ++ '/' :: '/' :: rest
        = b :: (u ++ '/' :: '/' :: rest) := rfl
    have ih := replaceFirstDS_junction (b :: u) rest ht
    rw [e2] at ih
    rw [e1]
    simp only [replaceFirstDS, if_neg hab]
    rw [ih]
    rfl

/-- Claim C1: for every configured credential triple, the single request
issued by each public operation (`get`, `createOrder`, `createUser`,
`updateOrderInfo`, `setOrderPaid`, `getShippingOptions`) carries both
`consumer_key` and `consumer_secret` in its query, set to the configured
key and secret; no entry under either name carries any other value. -/
theorem c1_creds_always_sent (c : Creds) :
    (∀ api q, credsOk c (get c api q)) ∧
    (∀ items note, credsOk c (createOrder c items note)) ∧
    (∀ info, credsOk c (createUser c info)) ∧
    (∀ oid info, credsOk c (updateOrderInfo c oid info)) ∧
    (∀ oid, credsOk c (setOrderPaid c oid)) ∧
    (∀ z, credsOk c (getShippingOptions c z)) :=
  ⟨fun api q => credsOk_call c "GET" api q none,
   fun items note => credsOk_call c "POST" "orders" none
     (some (.obj [("set_paid", .bool false), ("line_items", .arr items),
                  ("customer_note", .str note)])),
   fun info => credsOk_call c "POST" "customers" none
     (some (.obj (createUserFields info))),
   fun oid info => credsOk_call c "PUT" ("orders/" ++ toString oid) none
     (some (.obj [("shipping", .obj (shippingObj info)),
                  ("billing", .obj (billingObj info))])),
   fun oid => credsOk_call c "PUT" ("orders/" ++ toString oid) none
     (some (.obj [("set_paid", .bool true)])),
   fun z => credsOk_call c "GET" ("shipping/zones/" ++ toString z ++ "/methods")
     none none⟩

/-- Witness for C1 at a concrete credential triple and operation. -/
theorem c1_creds_always_sent_witness :
    credsOk ⟨"https://shop.example/", "ck", "cs"⟩
      (setOrderPaid ⟨"https://shop.example/", "ck", "cs"⟩ 7) :=
  (c1_creds_always_sent ⟨"https://shop.example/", "ck", "cs"⟩).2.2.2.2.1 7

/-- Claim C2: the three body-parsing operations never inspect the HTTP
status — a response with a JSON-parsable body yields the same resolved
value at any status (4xx/5xx included), and a body that is not valid
JSON raises a parsing failure; nothing else is raised and no retry or
fallback exists. -/
theorem c2_status_blind :
    (∀ (s₁ s₂ : Nat) (b : Option JValue),
      createOrderHandle ⟨s₁, b⟩ = createOrderHandle ⟨s₂, b⟩) ∧
    (∀ (s₁ s₂ : Nat) (b : Option JValue),
      createUserHandle ⟨s₁, b⟩ = createUserHandle ⟨s₂, b⟩) ∧
    (∀ (s₁ s₂ : Nat) (b : Option (List Method)),
      getShippingOptionsHandle ⟨s₁, b⟩ = getShippingOptionsHandle ⟨s₂, b⟩) ∧
    (∀ (s : Nat) (v : JValue), createOrderHandle ⟨s, some v⟩ = .ok v) ∧
    (∀ s : Nat, createOrderHandle ⟨s, none⟩ = .error .parseError) ∧
    (∀ (s : Nat) (v : JValue), createUserHandle ⟨s, some v⟩ = .ok v) ∧
    (∀ s : Nat, createUserHandle ⟨s, none⟩ = .error .parseError) ∧
    (∀ (s : Nat) (ms : List Method),
      getShippingOptionsHandle ⟨s, some ms⟩ = .ok (shippingOptionsOf ms)) ∧
    (∀ s : Nat, getShippingOptionsHandle ⟨s, none⟩ = .error .parseError) :=
  ⟨fun _ _ _ => rfl, fun _ _ _ => rfl, fun _ _ _ => rfl, fun _ _ => rfl,
   fun _ => rfl, fun _ _ => rfl, fun _ => rfl, fun _ _ => rfl, fun _ => rfl⟩

/-- Witness for C2: a simulated 500 response with a valid JSON body is
resolved exactly like a 200 one, and a 500 with an unparsable body
raises the parsing failure. -/
theorem c2_status_blind_witness :
    createOrderHandle ⟨500, some (.obj [("code", .str "err")])⟩
      = createOrderHandle ⟨200, some (.obj [("code", .str "err")])⟩ ∧
    createOrderHandle ⟨500, some (.obj [("code", .str "err")])⟩
      = .ok (.obj [("code", .str "err")]) ∧
    createOrderHandle ⟨500, none⟩ = .error .parseError :=
  ⟨c2_status_blind.1 500 200 _, c2_status_blind.2.2.2.1 500 _,
   c2_status_blind.2.2.2.2.1 500⟩

/-- Claim C3 counterexample: with the base URL `https://shop.example/`
(which ends in a slash) and the endpoint `orders`, the constructed URL
still contains a doubled slash between the base and the API segment —
the single `replace` hit the `//` of the scheme instead. -/
theorem c3_counterexample :
    joinUrl "https://shop.example/" "orders"
      = "https:/shop.example//wp-json/wc/v3/orders" ∧
    joinUrl "https://shop.example/" "orders"
      ≠ "https://shop.example/" ++ "wp-json/wc/v3/" ++ "orders" := by
  constructor
  · decide
  · decide

/-- Claim C3 as amended: for every base URL that ends in a slash and
contains no doubled slash of its own (in particular no `://` scheme
separator) and every endpoint, the doubled slash introduced between the
base and the API segment is the first one in the URL and is collapsed,
so the result is the clean concatenation. -/
theorem c3_amended_join (base api : String)
    (h1 : hasDS base.data = false)
    (h2 : base.data.getLast? = some '/') :
    joinUrl base api = base ++ "wp-json/wc/v3/" ++ api := by
  obtain ⟨u, hu⟩ := List.getLast?_eq_some_iff.mp h2
  apply String.ext
  show replaceFirstDS (base ++ "/wp-json/wc/v3/" ++ api).data
      = (base ++ "wp-json/wc/v3/" ++ api).data
  rw [String.data_append, String.data_append, String.data_append,
    String.data_append, hu]
  have hd : ("/wp-json/wc/v3/" : String).data
      = '/' :: ("wp-json/wc/v3/" : String).data := rfl
  rw [hd]
  have h1u : hasDS (u ++ ['/']) = false := by rw [← hu]; exact h1
  calc replaceFirstDS ((u ++ ['/']) ++ '/' :: ("wp-json/wc/v3/" : String).data
        ++ api.data)
      = replaceFirstDS (u ++ '/' :: '/'
          :: (("wp-json/wc/v3/" : String).data ++ api.data)) := by
        simp [List.append_assoc]
    _ = u ++ '/' :: (("wp-json/wc/v3/" : String).data ++ api.data) :=
        replaceFirstDS_junction u _ h1u
    _ = (u ++ ['/']) ++ ("wp-json/wc/v3/" : String).data ++ api.data := by
        simp [List.append_assoc]

/-- Witness for the amended C3 at a scheme-less base URL. -/
theorem c3_amended_join_witness :
    hasDS "shop.example/".data = false ∧
    "shop.example/".data.getLast? = some '/' ∧
    joinUrl "shop.example/" "orders"
      = "shop.example/" ++ "wp-json/wc/v3/" ++ "orders" :=
  ⟨by decide, by decide,
   c3_amended_join "shop.example/" "orders" (by decide) (by decide)⟩

/-- Claim C4 counterexample: in an environment where all three
credential variables are absent, module initialization still succeeds —
the TypeScript non-null assertions are erased at runtime, so there is no
fatal startup error, the credentials are simply undefined. -/
theorem c4_counterexample :
    (fun _ : String => (none : Option String)) "WOOCOMMERCE_URL" = none ∧
    moduleInit (fun _ : String => none) = .ok ⟨none, none, none⟩ :=
  ⟨rfl, rfl⟩

/-- Claim C4 as amended: the three credential strings are read once at
module load; absence of any is NOT detected at runtime — initialization
always succeeds, binding each constant to the environment value when
present and to undefined when absent. -/
theorem c4_amended_init (env : String → Option String) :
    (moduleInit env).isOk = true ∧
    (∀ u k s, env "WOOCOMMERCE_URL" = some u →
      env "WOOCOMMERCE_CONSUMER_KEY" = some k →
      env "WOOCOMMERCE_CONSUMER_SECRET" = some s →
      moduleInit env = .ok ⟨some u, some k, some s⟩) := by
  refine ⟨rfl, ?_⟩
  intro u k s hu hk hs
  simp [moduleInit, hu, hk, hs]

/-- Witness for the amended C4 at a fully populated environment. -/
theorem c4_amended_init_witness :
    (moduleInit envExample).isOk = true ∧
    moduleInit envExample
      = .ok ⟨some "https://shop.example/", some "ck", some "cs"⟩ :=
  ⟨(c4_amended_init envExample).1,
   (c4_amended_init envExample).2 _ _ _ (by decide) (by decide) (by decide)⟩

/-- Claim C5: for every line-items list and note, `createOrder` issues
its one request as a POST to `orders` whose body is exactly
`{set_paid: false, line_items, customer_note}` — `set_paid` is `false`
regardless of inputs — and its handler returns the remote JSON response
body unchanged. -/
theorem c5_createOrder_shape (c : Creds) (items : List JValue) (note : String) :
    (createOrder c items note).method = "POST" ∧
    (createOrder c items note).url = joinUrl c.url "orders" ∧
    (createOrder c items note).body
      = some (.obj [("set_paid", .bool false),
                    ("line_items", .arr items),
                    ("customer_note", .str note)]) ∧
    (∀ (s : Nat) (v : JValue), createOrderHandle ⟨s, some v⟩ = .ok v) :=
  ⟨rfl, rfl, rfl, fun _ _ => rfl⟩

/-- Witness for C5 at the spec's concrete example order. -/
theorem c5_createOrder_shape_witness :
    (createOrder ⟨"https://shop.example/", "ck", "cs"⟩
        [.obj [("product_id", .num 1), ("quantity", .num 2)]] "note").body
      = some (.obj [("set_paid", .bool false),
                    ("line_items", .arr [.obj [("product_id", .num 1),
                                               ("quantity", .num 2)]]),
                    ("customer_note", .str "note")]) ∧
    createOrderHandle ⟨200, some (.str "created")⟩ = .ok (.str "created") :=
  ⟨(c5_createOrder_shape ⟨"https://shop.example/", "ck", "cs"⟩
      [.obj [("product_id", .num 1), ("quantity", .num 2)]] "note").2.2.1,
   (c5_createOrder_shape ⟨"https://shop.example/", "ck", "cs"⟩
      [.obj [("product_id", .num 1), ("quantity", .num 2)]] "note").2.2.2
      200 (.str "created")⟩

/-- Claim C6: `getShippingOptions(zoneId)` requests
`GET shipping/zones/{zoneId}/methods`, and from the returned array keeps
exactly the methods whose enabled flag is true, each projected to
`{id: method_id, title: method_title, prices: [{label: "Free",
amount: 0}]}`; disabled methods are excluded. -/
theorem c6_shipping_projection (c : Creds) (z : Int) (methods : List Method) :
    (getShippingOptions c z).method = "GET" ∧
    (getShippingOptions c z).url
      = joinUrl c.url ("shipping/zones/" ++ toString z ++ "/methods") ∧
    (∀ s : Nat, getShippingOptionsHandle ⟨s, some methods⟩
      = .ok (shippingOptionsOf methods)) ∧
    (∀ m : Method, projMethod m
      = ⟨m.method_id, m.method_title, [⟨"Free", 0⟩]⟩) ∧
    (∀ o : ShippingOption, o ∈ shippingOptionsOf methods
      ↔ ∃ m, m ∈ methods ∧ m.enabled = true ∧ projMethod m = o) := by
  refine ⟨rfl, rfl, fun _ => rfl, fun _ => rfl, fun o => ?_⟩
  simp only [shippingOptionsOf, List.mem_map, List.mem_filter]
  constructor
  · rintro ⟨m, ⟨hm, he⟩, hp⟩
    exact ⟨m, hm, he, hp⟩
  · rintro ⟨m, hm, he, hp⟩
    exact ⟨m, ⟨hm, he⟩, hp⟩

/-- Witness for C6 at the spec's concrete example: the enabled flat-rate
method is projected, the disabled one is excluded. -/
theorem c6_shipping_projection_witness :
    (⟨"flat", "Flat Rate", [⟨"Free", 0⟩]⟩ : ShippingOption)
      ∈ shippingOptionsOf [⟨"flat", "Flat Rate", true⟩, ⟨"x", "X", false⟩] ∧
    ¬ ((⟨"x", "X", [⟨"Free", 0⟩]⟩ : ShippingOption)
      ∈ shippingOptionsOf [⟨"flat", "Flat Rate", true⟩, ⟨"x", "X", false⟩]) := by
  have h := c6_shipping_projection ⟨"https://shop.example/", "ck", "cs"⟩ 1
    [⟨"flat", "Flat Rate", true⟩, ⟨"x", "X", false⟩]
  constructor
  · exact (h.2.2.2.2 ⟨"flat", "Flat Rate", [⟨"Free", 0⟩]⟩).mpr
      ⟨⟨"flat", "Flat Rate", true⟩, by simp, rfl, rfl⟩
  · intro hmem
    rcases (h.2.2.2.2 ⟨"x", "X", [⟨"Free", 0⟩]⟩).mp hmem with ⟨m, hm, he, hp⟩
    rcases List.mem_cons.mp hm with h1 | h1
    · rw [h1] at hp
      exact absurd (congrArg ShippingOption.id hp) (by decide)
    · rcases List.mem_cons.mp h1 with h2 | h2
      · rw [h2] at he
        exact absurd he (by decide)
      · simp at h2

/-- Claim C7: `updateOrderInfo` builds parallel `shipping` and `billing`
sub-objects in which `first_name` and `last_name` are both the single
`name` field; `createUser` does the same in both its sub-objects and
additionally sets top-level `first_name`, `last_name` and `username`
all to `name`. -/
theorem c7_name_duplication (c : Creds) (oid : Int) (info : OrderInfo) :
    (updateOrderInfo c oid info).body
      = some (.obj [("shipping", .obj (shippingObj info)),
                    ("billing", .obj (billingObj info))]) ∧
    lookupField (shippingObj info) "first_name" = some (jopt info.name) ∧
    lookupField (shippingObj info) "last_name" = some (jopt info.name) ∧
    lookupField (billingObj info) "first_name" = some (jopt info.name) ∧
    lookupField (billingObj info) "last_name" = some (jopt info.name) ∧
    (createUser c info).body = some (.obj (createUserFields info)) ∧
    lookupField (createUserFields info) "first_name" = some (jopt info.name) ∧
    lookupField (createUserFields info) "last_name" = some (jopt info.name) ∧
    lookupField (createUserFields info) "username" = some (jopt info.name) :=
  ⟨rfl, rfl, rfl, rfl, rfl, rfl, rfl, rfl, rfl⟩

/-- Witness for C7 with `name = "Alice"`: both name fields of both
sub-objects, and `username`, are `"Alice"`. -/
theorem c7_name_duplication_witness :
    lookupField (shippingObj ⟨some "Alice", none, none, none⟩) "first_name"
      = some (.str "Alice") ∧
    lookupField (shippingObj ⟨some "Alice", none, none, none⟩) "last_name"
      = some (.str "Alice") ∧
    lookupField (billingObj ⟨some "Alice", none, none, none⟩) "first_name"
      = some (.str "Alice") ∧
    lookupField (billingObj ⟨some "Alice", none, none, none⟩) "last_name"
      = some (.str "Alice") ∧
    lookupField (createUserFields ⟨some "Alice", none, none, none⟩) "username"
      = some (.str "Alice") :=
  ⟨(c7_name_duplication ⟨"https://shop.example/", "ck", "cs"⟩ 1
      ⟨some "Alice", none, none, none⟩).2.1,
   (c7_name_duplication ⟨"https://shop.example/", "ck", "cs"⟩ 1
      ⟨some "Alice", none, none, none⟩).2.2.1,
   (c7_name_duplication ⟨"https://shop.example/", "ck", "cs"⟩ 1
      ⟨some "Alice", none, none, none⟩).2.2.2.1,
   (c7_name_duplication ⟨"https://shop.example/", "ck", "cs"⟩ 1
      ⟨some "Alice", none, none, none⟩).2.2.2.2.1,
   (c7_name_duplication ⟨"https://shop.example/", "ck", "cs"⟩ 1
      ⟨some "Alice", none, none, none⟩).2.2.2.2.2.2.2.2⟩

/-- Claim C8: `setOrderPaid(orderId)` issues one PUT to
`orders/{orderId}` with body `{set_paid: true}` and hands back the raw
response unparsed; at 42 the endpoint is `orders/42`. -/
theorem c8_setOrderPaid_shape (c : Creds) (oid : Int) :
    (setOrderPaid c oid).method = "PUT" ∧
    (setOrderPaid c oid).url = joinUrl c.url ("orders/" ++ toString oid) ∧
    (setOrderPaid c oid).body = some (.obj [("set_paid", .bool true)]) ∧
    (setOrderPaid c 42).url = joinUrl c.url "orders/42" ∧
    (∀ r : Response JValue, setOrderPaidResult r = r) :=
  ⟨rfl, rfl, rfl, rfl, fun _ => rfl⟩

/-- Witness for C8 at order id 42 and concrete credentials. -/
theorem c8_setOrderPaid_shape_witness :
    (setOrderPaid ⟨"https://shop.example/", "ck", "cs"⟩ 42).method = "PUT" ∧
    (setOrderPaid ⟨"https://shop.example/", "ck", "cs"⟩ 42).body
      = some (.obj [("set_paid", .bool true)]) ∧
    (setOrderPaid ⟨"https://shop.example/", "ck", "cs"⟩ 42).url
      = joinUrl "https://shop.example/" "orders/42" :=
  ⟨(c8_setOrderPaid_shape ⟨"https://shop.example/", "ck", "cs"⟩ 42).1,
   (c8_setOrderPaid_shape ⟨"https://shop.example/", "ck", "cs"⟩ 42).2.2.1,
   (c8_setOrderPaid_shape ⟨"https://shop.example/", "ck", "cs"⟩ 42).2.2.2.1⟩

/-- Claim C9: caller-supplied query entries named `consumer_key` or
`consumer_secret` (reachable through the exported `get`) are overwritten
with the configured values — every entry under those names in the
outgoing query carries the configured value — while all other
caller-supplied parameters are preserved, in order. -/
theorem c9_caller_creds_overwritten (c : Creds) (api : String)
    (q : List (String × String)) :
    (∀ p ∈ (get c api (some q)).query, p.1 = "consumer_key" → p.2 = c.key) ∧
    (∀ p ∈ (get c api (some q)).query,
      p.1 = "consumer_secret" → p.2 = c.secret) ∧
    (get c api (some q)).query.filter (fun p => notCredName p.1)
      = q.filter (fun p => notCredName p.1) := by
  refine ⟨(credsOk_call c "GET" api (some q) none).2.2.1,
    (credsOk_call c "GET" api (some q) none).2.2.2, ?_⟩
  show (paramsSet (paramsSet q "consumer_secret" c.secret)
      "consumer_key" c.key).filter (fun p => notCredName p.1)
    = q.filter (fun p => notCredName p.1)
  rw [filter_paramsSet _ _ _ _ (by decide), filter_paramsSet _ _ _ _ (by decide)]

/-- Witness for C9: a caller-chosen `consumer_key` is replaced and the
other parameter survives unchanged. -/
theorem c9_caller_creds_overwritten_witness :
    (∀ p ∈ (get ⟨"https://shop.example/", "ck", "cs"⟩ "orders"
        (some [("consumer_key", "evil"), ("zone", "1")])).query,
      p.1 = "consumer_key" → p.2 = "ck") ∧
    (get ⟨"https://shop.example/", "ck", "cs"⟩ "orders"
        (some [("consumer_key", "evil"), ("zone", "1")])).query.filter
        (fun p => notCredName p.1)
      = [("zone", "1")] :=
  ⟨(c9_caller_creds_overwritten ⟨"https://shop.example/", "ck", "cs"⟩ "orders"
      [("consumer_key", "evil"), ("zone", "1")]).1,
   (c9_caller_creds_overwritten ⟨"https://shop.example/", "ck", "cs"⟩ "orders"
      [("consumer_key", "evil"), ("zone", "1")]).2.2⟩

/-- Claim C10: the options returned by `getShippingOptions` are the
projections of a sublist of the remote methods array (so the relative
order of enabled entries is preserved), every member of that sublist is
enabled, and the output length is the number of enabled entries — never
more than the remote array's length. -/
theorem c10_order_and_length (methods : List Method) :
    ∃ ms : List Method, ms.Sublist methods ∧
      (∀ m ∈ ms, m.enabled = true) ∧
      shippingOptionsOf methods = ms.map projMethod ∧
      (shippingOptionsOf methods).length
        = methods.countP (fun m => m.enabled) ∧
      (shippingOptionsOf methods).length ≤ methods.length := by
  refine ⟨methods.filter (fun m => m.enabled), List.filter_sublist methods,
    ?_, rfl, ?_, ?_⟩
  · intro m hm
    exact (List.mem_filter.mp hm).2
  · rw [List.countP_eq_length_filter]
    simp [shippingOptionsOf]
  · calc (shippingOptionsOf methods).length
        = (methods.filter (fun m => m.enabled)).length := by
          simp [shippingOptionsOf]
      _ ≤ methods.length := List.length_filter_le _ _

/-- Witness for C10 at the spec's two-method example: one enabled entry,
output length one. -/
theorem c10_order_and_length_witness :
    ∃ ms : List Method,
      ms.Sublist [⟨"flat", "Flat Rate", true⟩, ⟨"x", "X", false⟩] ∧
      (∀ m ∈ ms, m.enabled = true) ∧
      shippingOptionsOf [⟨"flat", "Flat Rate", true⟩, ⟨"x", "X", false⟩]
        = ms.map projMethod ∧
      (shippingOptionsOf [⟨"flat", "Flat Rate", true⟩,
          ⟨"x", "X", false⟩]).length
        = ([⟨"flat", "Flat Rate", true⟩,
            ⟨"x", "X", false⟩] : List Method).countP (fun m => m.enabled) ∧
      (shippingOptionsOf [⟨"flat", "Flat Rate", true⟩,
          ⟨"x", "X", false⟩]).length
        ≤ ([⟨"flat", "Flat Rate", true⟩, ⟨"x", "X", false⟩] : List Method).length :=
  c10_order_and_length [⟨"flat", "Flat Rate", true⟩, ⟨"x", "X", false⟩]

end Woo
